import Mathlib

/-!
# forms-server: the lead form service of `server.js`

A shallow embedding of `src/server.js`: the Mongoose schema `leadSchema`
(lines 10-44), the e-mail composer `sendEmails` (lines 64-121) and the three
Express routes (lines 128-159).

Domain of the model. A request body is the parsed JSON object of the form:
every schema path of type `String` holds either nothing or a string, the
nested `billingAddress` is either absent or an object of such paths, and a
client `createdAt` is either absent or a whole number of milliseconds. Within
that domain the cast of a `String` path is the identity and the cast of the
`Date` path fails outside the range of JavaScript time values; a JSON value of
another type (a number, null, array or object in the place of a string, a
string or a fraction in the place of the date) goes through further casts of
the Mongoose library and is outside the model. The persistence store and the mail
transport are external collaborators; their outcomes are inputs of the model
(`Env`). The generated `_id` and `__v` of a stored document play no part in
any handler and are left out of `Lead`.
-/

set_option maxRecDepth 100000

namespace FormsServer

/-! ## Data model (server.js lines 10-44) -/

/-- The nested path `billingAddress` of `leadSchema` (lines 22-29). It is also
the shape of `req.body.billingAddress` when the client sends one. -/
structure Address where
  street : Option String := none
  aptUnit : Option String := none
  city : Option String := none
  state : Option String := none
  zipCode : Option String := none
  country : Option String := none
deriving DecidableEq, Repr

/-- The request body `req.body` of `POST /api/form/submit`, read along the paths
of `leadSchema`. `none` is an absent (undefined) field; `createdAt` is the
number the client sent, before the cast to `Date`. -/
structure Body where
  firstName : Option String := none
  lastName : Option String := none
  email : Option String := none
  phone : Option String := none
  phoneExt : Option String := none
  textNumber : Option String := none
  businessName : Option String := none
  businessPhone : Option String := none
  businessPhoneExt : Option String := none
  businessEmail : Option String := none
  businessServices : Option String := none
  billingAddress : Option Address := none
  preferredContact : Option String := none
  serviceDesired : Option String := none
  hasWebsite : Option String := none
  websiteAddress : Option String := none
  message : Option String := none
  createdAt : Option Int := none
deriving DecidableEq, Repr

/-- A `Lead` document, as built by `new Lead(req.body)` (line 134) and as kept
in the store. `billingAddress` is a nested path, not a subdocument, so it is
always defined on a document; an address whose six paths are all `none` is the
empty object that Mongoose drops on save. `createdAt` is in milliseconds. -/
structure Lead where
  firstName : Option String
  lastName : Option String
  email : Option String
  phone : Option String
  phoneExt : Option String
  textNumber : Option String
  businessName : Option String
  businessPhone : Option String
  businessPhoneExt : Option String
  businessEmail : Option String
  businessServices : Option String
  billingAddress : Address
  preferredContact : Option String
  serviceDesired : Option String
  hasWebsite : Option String
  websiteAddress : Option String
  message : Option String
  createdAt : Int
deriving DecidableEq, Repr

/-- The `enum` of `preferredContact` (line 32). -/
def preferredContactEnum : List String :=
  ["phone", "email", "text", "businessPhone", "businessEmail"]

/-- The `enum` of `serviceDesired` (line 37). -/
def serviceDesiredEnum : List String :=
  ["Web Development", "App Development"]

/-- A schema default (`default: "USA"` on line 28, `default: Date.now` on
line 43): it is used when the path is undefined in the input and only then. -/
def withDefault {α : Type} (v : Option α) (d : α) : α :=
  match v with
  | some x => x
  | none => d

/-- Construction of the nested path `billingAddress` (lines 22-29). The default
of `billingAddress.country` belongs to a path of the top-level schema, so it is
applied to every new document, whether or not the input has a `billingAddress`
object. -/
def newBillingAddress (input : Option Address) : Address :=
  let given : Address := withDefault input {}
  { street := given.street
    aptUnit := given.aptUnit
    city := given.city
    state := given.state
    zipCode := given.zipCode
    country := some (withDefault given.country "USA") }

/-- The largest time value of a JavaScript `Date`: 8.64e15 milliseconds on
either side of the epoch. -/
def maxTimeValue : Int := 8640000000000000

/-- The cast of a number to the path `createdAt` of type `Date` (line 43):
`new Date(t)` is a valid date exactly when `t` is a time value, and the cast
fails otherwise. -/
def castDate (t : Int) : Option Int :=
  if -maxTimeValue ≤ t ∧ t ≤ maxTimeValue then some t else none

/-- The document built by `new Lead(req.body)`: the values of its paths, and
whether a cast failed while they were set. The constructor does not throw; the
failure stays on the document until `save` validates it. -/
structure Document where
  fields : Lead
  castError : Bool
deriving DecidableEq, Repr

/-- `new Lead(req.body)` (line 134): every schema path is cast and copied from
the body, and the two defaults are applied; `now` is the value of `Date.now()`
at construction. A `createdAt` that fails its cast is not set, so the default
takes its place, and the failure is recorded. -/
def newLead (now : Int) (body : Body) : Document :=
  { fields :=
      { firstName := body.firstName
        lastName := body.lastName
        email := body.email
        phone := body.phone
        phoneExt := body.phoneExt
        textNumber := body.textNumber
        businessName := body.businessName
        businessPhone := body.businessPhone
        businessPhoneExt := body.businessPhoneExt
        businessEmail := body.businessEmail
        businessServices := body.businessServices
        billingAddress := newBillingAddress body.billingAddress
        preferredContact := body.preferredContact
        serviceDesired := body.serviceDesired
        hasWebsite := body.hasWebsite
        websiteAddress := body.websiteAddress
        message := body.message
        createdAt := withDefault (body.createdAt.bind castDate) now }
    castError :=
      match body.createdAt with
      | some t => (castDate t).isNone
      | none => false }

/-- The validator of `required: true` on a `String` path (lines 11-14, 33, 38):
the value must be a string of non-zero length. -/
def checkRequired (v : Option String) : Bool :=
  match v with
  | some s => s != ""
  | none => false

/-- The validator of `enum: [...]` (lines 32, 37): an undefined value passes,
any other value must be one of the listed strings. -/
def enumValidator (values : List String) (v : Option String) : Bool :=
  match v with
  | some s => values.contains s
  | none => true

/-- Document validation as run by `lead.save()` (line 135): no cast may have
failed at construction and every validator of the schema must pass. -/
def validate (doc : Document) : Bool :=
  !doc.castError &&
  checkRequired doc.fields.firstName &&
  checkRequired doc.fields.lastName &&
  checkRequired doc.fields.email &&
  checkRequired doc.fields.phone &&
  checkRequired doc.fields.preferredContact &&
  enumValidator preferredContactEnum doc.fields.preferredContact &&
  checkRequired doc.fields.serviceDesired &&
  enumValidator serviceDesiredEnum doc.fields.serviceDesired

/-- Why `lead.save()` rejected. -/
inductive SaveError where
  | validation
  | store
deriving DecidableEq, Repr

/-- The call `lead.save()` (line 135): validation first, then the insert, which
the store accepts or not (`storeAccepts`). A saved document is appended to the
collection. -/
def save (storeAccepts : Bool) (db : List Lead) (doc : Document) :
    Except SaveError (List Lead) :=
  if validate doc then
    if storeAccepts then .ok (db ++ [doc.fields]) else .error .store
  else .error .validation

/-! ## External collaborators and configuration -/

/-- One message handed to `transporter.sendMail` (lines 68-109 and 112-120).
`sender` is the option `from` and `recipient` the option `to`, two words that
are reserved here. -/
structure Mail where
  sender : Option String
  recipient : Option String
  subject : String
  html : String
deriving DecidableEq, Repr

/-- What a request handler reads from outside the program while it runs: the
clock, the configuration in `process.env`, and the outcomes of the calls to the
store and to the mail transport. `sendMail k m` tells whether the call number
`k` (counted from 0 within the request) with message `m` resolves (`true`) or
rejects (`false`). -/
structure Env where
  now : Int
  localTime : String
  emailUser : Option String
  adminEmail : Option String
  storeAccepts : Bool
  storeReadable : Bool
  sendMail : Nat → Mail → Bool

/-! ## E-mail composer (server.js lines 64-121) -/

/-- JavaScript truthiness of a field that is undefined or a string. -/
def truthy (v : Option String) : Bool :=
  match v with
  | some s => s != ""
  | none => false

/-- A template substitution `${v}`: an undefined value prints as `undefined`. -/
def interp (v : Option String) : String :=
  match v with
  | some s => s
  | none => "undefined"

/-- The JavaScript expression `v || d` inside a template. -/
def orElse (v : Option String) (d : String) : String :=
  if truthy v then interp v else d

/-- The expression of lines 88-95: the billing part of the admin message. -/
def billingSection (billingAddress : Option Address) : String :=
  match billingAddress with
  | some a =>
    "\n        <p><strong>Street:</strong> " ++ orElse a.street "Not provided" ++ "</p>\n        " ++
    (if truthy a.aptUnit then "<p><strong>Apt/Unit:</strong> " ++ interp a.aptUnit ++ "</p>" else "") ++
    "\n        <p><strong>City:</strong> " ++ orElse a.city "Not provided" ++
    "</p>\n        <p><strong>State:</strong> " ++ orElse a.state "Not provided" ++
    "</p>\n        <p><strong>ZIP Code:</strong> " ++ orElse a.zipCode "Not provided" ++
    "</p>\n        <p><strong>Country:</strong> " ++ orElse a.country "USA" ++ "</p>\n      "
  | none => "<p>No billing address provided</p>"

/-- The `html` of the admin notification (lines 72-108). -/
def adminHtml (localTime : String) (leadData : Body) : String :=
  "\n      <h2>New Lead Submission</h2>\n      \n      <h3>Personal Information</h3>\n      <p><strong>Name:</strong> " ++
  interp leadData.firstName ++ " " ++ interp leadData.lastName ++
  "</p>\n      <p><strong>Email:</strong> " ++ interp leadData.email ++
  "</p>\n      <p><strong>Phone:</strong> " ++ interp leadData.phone ++
  (if truthy leadData.phoneExt then " ext. " ++ interp leadData.phoneExt else "") ++ "</p>\n      " ++
  (if truthy leadData.textNumber then
    "<p><strong>Text Number:</strong> " ++ interp leadData.textNumber ++ "</p>" else "") ++
  "\n      \n      <h3>Business Information</h3>\n      " ++
  (if truthy leadData.businessName then
    "<p><strong>Business Name:</strong> " ++ interp leadData.businessName ++ "</p>" else "") ++
  "\n      " ++
  (if truthy leadData.businessPhone then
    "<p><strong>Business Phone:</strong> " ++ interp leadData.businessPhone ++
    (if truthy leadData.businessPhoneExt then " ext. " ++ interp leadData.businessPhoneExt else "") ++
    "</p>" else "") ++
  "\n      " ++
  (if truthy leadData.businessEmail then
    "<p><strong>Business Email:</strong> " ++ interp leadData.businessEmail ++ "</p>" else "") ++
  "\n      " ++
  (if truthy leadData.businessServices then
    "<p><strong>Business Services:</strong> " ++ interp leadData.businessServices ++ "</p>" else "") ++
  "\n      \n      <h3>Billing Address</h3>\n      " ++
  billingSection leadData.billingAddress ++
  "\n      \n      <h3>Service Details</h3>\n      <p><strong>Service Requested:</strong> " ++
  interp leadData.serviceDesired ++
  "</p>\n      <p><strong>Preferred Contact Method:</strong> " ++ interp leadData.preferredContact ++
  "</p>\n      " ++
  (if truthy leadData.hasWebsite then
    "<p><strong>Has Website:</strong> " ++ interp leadData.hasWebsite ++ "</p>" else "") ++
  "\n      " ++
  (if truthy leadData.websiteAddress then
    "<p><strong>Website Address:</strong> " ++ interp leadData.websiteAddress ++ "</p>" else "") ++
  "\n      \n      <h3>Additional Information</h3>\n      <p><strong>Message:</strong> " ++
  orElse leadData.message "None provided" ++
  "</p>\n      \n      <hr>\n      <p><em>Submitted on: " ++ localTime ++ "</em></p>\n    "

/-- The admin notification (lines 68-109). -/
def adminMail (env : Env) (leadData : Body) : Mail :=
  { sender := env.emailUser
    recipient := env.adminEmail
    subject := "New " ++ interp leadData.serviceDesired ++ " inquiry from " ++
      interp leadData.firstName ++ " " ++ interp leadData.lastName
    html := adminHtml env.localTime leadData }

/-- The user confirmation (lines 112-120). -/
def userMail (env : Env) (leadData : Body) : Mail :=
  { sender := env.emailUser
    recipient := leadData.email
    subject := "Thank you for your " ++ interp leadData.serviceDesired ++ " inquiry"
    html := "\n      <h2>Thank you, " ++ interp leadData.firstName ++
      "!</h2>\n      <p>We received your " ++ interp leadData.serviceDesired ++
      " inquiry and will contact you soon.</p>\n    " }

/-- The run of `sendEmails(leadData)` (lines 64-121): the messages handed to
`transporter.sendMail`, in call order, and whether the function resolved
(`true`) or rejected (`false`). An `await` on a rejected send leaves the
function at once. -/
def sendEmails (env : Env) (leadData : Body) : List Mail × Bool :=
  if env.sendMail 0 (adminMail env leadData) then
    if env.sendMail 1 (userMail env leadData) then
      ([adminMail env leadData, userMail env leadData], true)
    else
      ([adminMail env leadData, userMail env leadData], false)
  else
    ([adminMail env leadData], false)

/-! ## HTTP surface (server.js lines 128-159) -/

/-- The JSON document given to `res.json`. -/
inductive Payload where
  | status (s : String)
  | message (m : String)
  | error (e : String)
  | leads (ls : List Lead)
deriving DecidableEq, Repr

/-- An HTTP response: status code and JSON body. `res.json` without `res.status`
answers 200. -/
structure Response where
  status : Nat
  body : Payload
deriving DecidableEq, Repr

/-- The effect of handling one request: the response, the store afterwards and
the messages handed to the mail transport. -/
structure Outcome where
  response : Response
  db : List Lead
  mails : List Mail
deriving DecidableEq, Repr

/-- The handler of `GET /health` (lines 128-130). -/
def health (db : List Lead) : Outcome :=
  { response := { status := 200, body := .status "OK" }, db := db, mails := [] }

/-- The handler of `POST /api/form/submit` (lines 132-149). The inner
`try/catch` discards the result of `sendEmails`. -/
def submit (env : Env) (db : List Lead) (body : Body) : Outcome :=
  match save env.storeAccepts db (newLead env.now body) with
  | .ok db1 =>
    { response := { status := 200, body := .message "Form submitted successfully" }
      db := db1
      mails := (sendEmails env body).1 }
  | .error _ =>
    { response := { status := 500, body := .message "Error submitting form" }
      db := db
      mails := [] }

/-- The sort key `{ createdAt: -1 }` (line 154): `a` may stand before `b`. -/
def newestFirst (a b : Lead) : Prop := b.createdAt ≤ a.createdAt

instance : DecidableRel newestFirst :=
  fun a b => inferInstanceAs (Decidable (b.createdAt ≤ a.createdAt))

instance : IsTotal Lead newestFirst :=
  ⟨fun a b => Int.le_total b.createdAt a.createdAt⟩

instance : IsTrans Lead newestFirst :=
  ⟨fun _ _ _ hab hbc => Int.le_trans hbc hab⟩

/-- The query `Lead.find().sort({ createdAt: -1 }).limit(50)` (line 154): the
collection sorted by `createdAt` descending, cut after 50 documents. The store
fixes no order among documents of equal `createdAt`; the model keeps them in
insertion order. -/
def findLeads (db : List Lead) : List Lead :=
  (db.insertionSort newestFirst).take 50

/-- The handler of `GET /api/leads` (lines 152-159). -/
def leads (env : Env) (db : List Lead) : Outcome :=
  if env.storeReadable then
    { response := { status := 200, body := .leads (findLeads db) }, db := db, mails := [] }
  else
    { response := { status := 500, body := .error "Failed to fetch leads" }, db := db, mails := [] }

/-- A request to one of the three routes. -/
inductive Request where
  | health
  | submit (body : Body)
  | leads
deriving DecidableEq, Repr

/-- Routing (lines 128, 132, 152). -/
def handle (env : Env) (db : List Lead) : Request → Outcome
  | .health => health db
  | .submit body => submit env db body
  | .leads => leads env db

/-- The store after a sequence of requests, each handled in its own
environment. -/
def run (db : List Lead) : List (Env × Request) → List Lead
  | [] => db
  | (env, req) :: rest => run (handle env db req).db rest

/-! ## Vocabulary of the specification and concrete inputs -/

/-- A field that is absent or is the empty string. -/
def missing (v : Option String) : Prop := v = none ∨ v = some ""

/-- The error answer of the submission route. -/
def errorResponse : Response :=
  { status := 500, body := .message "Error submitting form" }

/-- The success answer of the submission route. -/
def successResponse : Response :=
  { status := 200, body := .message "Form submitted successfully" }

/-- One labelled line of the admin message. -/
def addressLine (label value : String) : String :=
  "<p><strong>" ++ label ++ ":</strong> " ++ value ++ "</p>"

/-- What a line shows for a sub-field: its value, or the placeholder when the
sub-field is missing (absent or empty). -/
def shown (v : Option String) (placeholder : String) : String :=
  match v with
  | some s => if s = "" then placeholder else s
  | none => placeholder

/-- The billing section in the words of the specification: when the address is
present, the five lines street, city, state, ZIP code and country, a missing
sub-field being replaced by a placeholder, and the Apt/Unit line only when that
sub-field is given; when the address is absent, the single line
"No billing address provided". The placeholder of the country line is the
argument `countryPlaceholder`; for the other four lines it is "Not provided". -/
def billingSectionSpec (countryPlaceholder : String) (billingAddress : Option Address) :
    String :=
  match billingAddress with
  | some a =>
    "\n        " ++ addressLine "Street" (shown a.street "Not provided") ++
    "\n        " ++ (if shown a.aptUnit "" = "" then "" else
      addressLine "Apt/Unit" (shown a.aptUnit "")) ++
    "\n        " ++ addressLine "City" (shown a.city "Not provided") ++
    "\n        " ++ addressLine "State" (shown a.state "Not provided") ++
    "\n        " ++ addressLine "ZIP Code" (shown a.zipCode "Not provided") ++
    "\n        " ++ addressLine "Country" (shown a.country countryPlaceholder) ++
    "\n      "
  | none => "<p>No billing address provided</p>"

/-- Whether a request is a form submission. -/
def isSubmit (req : Request) : Bool :=
  match req with
  | .submit _ => true
  | _ => false

/-- An environment in which the store works and every send is rejected. -/
def mailDownEnv : Env :=
  { now := 1700000000000
    localTime := "11/14/2023, 10:13:20 PM"
    emailUser := some "forms@example.com"
    adminEmail := some "admin@example.com"
    storeAccepts := true
    storeReadable := true
    sendMail := fun _ _ => false }

/-- The concrete scenario of the specification. -/
def janeBody : Body :=
  { firstName := some "Jane"
    lastName := some "Doe"
    email := some "jane@x.com"
    phone := some "555-1234"
    preferredContact := some "email"
    serviceDesired := some "Web Development" }

/-! ## Shared lemmas -/

theorem checkRequired_of_missing {v : Option String} (h : missing v) :
    checkRequired v = false := by
  rcases h with h | h <;> simp [h, checkRequired]

theorem castDate_of_range {t : Int}
    (h : -8640000000000000 ≤ t ∧ t ≤ 8640000000000000) : castDate t = some t := by
  simp [castDate, maxTimeValue, h.1, h.2]

theorem castDate_eq_self {t : Int} (h : (castDate t).isNone = false) : castDate t = some t := by
  unfold castDate at h ⊢
  split
  · rfl
  · rename_i hn
    simp [hn] at h

theorem createdAt_of_validate (now : Int) (body : Body)
    (hv : validate (newLead now body) = true) :
    (newLead now body).fields.createdAt = withDefault body.createdAt now := by
  cases hc : body.createdAt with
  | none => simp [newLead, hc]
  | some t =>
    have hcast : (castDate t).isNone = false := by
      cases hn : (castDate t).isNone with
      | false => rfl
      | true => simp [validate, newLead, hc, hn] at hv
    simp [newLead, hc, castDate_eq_self hcast, withDefault]

theorem submit_of_not_validate (env : Env) (db : List Lead) (body : Body)
    (h : validate (newLead env.now body) = false) :
    submit env db body = { response := errorResponse, db := db, mails := [] } := by
  simp [submit, save, h, errorResponse]

theorem submit_of_not_storeAccepts (env : Env) (db : List Lead) (body : Body)
    (h : env.storeAccepts = false) :
    submit env db body = { response := errorResponse, db := db, mails := [] } := by
  by_cases hv : validate (newLead env.now body) = true <;>
    simp [submit, save, h, hv, errorResponse]

theorem submit_of_saved (env : Env) (db : List Lead) (body : Body)
    (hv : validate (newLead env.now body) = true) (hs : env.storeAccepts = true) :
    submit env db body =
      { response := successResponse
        db := db ++ [(newLead env.now body).fields]
        mails := (sendEmails env body).1 } := by
  simp [submit, save, hv, hs, successResponse]

theorem saved_of_status (env : Env) (db : List Lead) (body : Body)
    (h : (submit env db body).response.status = 200) :
    validate (newLead env.now body) = true ∧ env.storeAccepts = true := by
  cases hv : validate (newLead env.now body) with
  | false =>
    rw [submit_of_not_validate env db body hv] at h
    simp [errorResponse] at h
  | true =>
    cases hs : env.storeAccepts with
    | false =>
      rw [submit_of_not_storeAccepts env db body hs] at h
      simp [errorResponse] at h
    | true => exact ⟨rfl, rfl⟩

/-! ## Rejected submissions -/

/-- C1. A body in which one of the six required fields is absent or is the empty
string is answered with status 500 and the message "Error submitting form"; the
store is left as it was and no message is handed to the mail transport. -/
theorem submit_rejects_missing_required (env : Env) (db : List Lead) (body : Body)
    (h : missing body.firstName ∨ missing body.lastName ∨ missing body.email ∨
      missing body.phone ∨ missing body.preferredContact ∨ missing body.serviceDesired) :
    (submit env db body).response = { status := 500, body := .message "Error submitting form" } ∧
    (submit env db body).db = db ∧
    (submit env db body).mails = [] := by
  have hv : validate (newLead env.now body) = false := by
    rcases h with h | h | h | h | h | h <;>
      simp [validate, newLead, checkRequired_of_missing h]
  rw [submit_of_not_validate env db body hv]
  exact ⟨rfl, rfl, rfl⟩

theorem submit_rejects_missing_required_witness :
    missing ({ janeBody with phone := some "" } : Body).phone ∧
      (submit mailDownEnv [] { janeBody with phone := some "" }).response =
        { status := 500, body := .message "Error submitting form" } ∧
      (submit mailDownEnv [] { janeBody with phone := some "" }).db = [] ∧
      (submit mailDownEnv [] { janeBody with phone := some "" }).mails = [] :=
  ⟨Or.inr rfl,
    submit_rejects_missing_required mailDownEnv [] { janeBody with phone := some "" }
      (Or.inr (Or.inr (Or.inr (Or.inl (Or.inr rfl)))))⟩

/-- C2. A body whose preferredContact is not one of phone, email, text,
businessPhone, businessEmail, or whose serviceDesired is not one of
"Web Development", "App Development", whatever its other fields, is answered
with status 500 and the message "Error submitting form", and the store is left
as it was. -/
theorem submit_rejects_outside_enum (env : Env) (db : List Lead) (body : Body)
    (h : body.preferredContact ∉
          [some "phone", some "email", some "text", some "businessPhone", some "businessEmail"] ∨
        body.serviceDesired ∉ [some "Web Development", some "App Development"]) :
    (submit env db body).response = { status := 500, body := .message "Error submitting form" } ∧
    (submit env db body).db = db := by
  have hv : validate (newLead env.now body) = false := by
    rcases h with h | h
    · cases hp : body.preferredContact with
      | none => simp [validate, newLead, hp, checkRequired]
      | some s =>
        have : enumValidator preferredContactEnum (some s) = false := by
          simpa [enumValidator, preferredContactEnum, hp] using h
        simp [validate, newLead, hp, this]
    · cases hp : body.serviceDesired with
      | none => simp [validate, newLead, hp, checkRequired]
      | some s =>
        have : enumValidator serviceDesiredEnum (some s) = false := by
          simpa [enumValidator, serviceDesiredEnum, hp] using h
        simp [validate, newLead, hp, this]
  rw [submit_of_not_validate env db body hv]
  exact ⟨rfl, rfl⟩

theorem submit_rejects_outside_enum_witness :
    ({ janeBody with preferredContact := some "fax" } : Body).preferredContact ∉
        [some "phone", some "email", some "text", some "businessPhone", some "businessEmail"] ∧
      (submit mailDownEnv [] { janeBody with preferredContact := some "fax" }).response =
        { status := 500, body := .message "Error submitting form" } ∧
      (submit mailDownEnv [] { janeBody with preferredContact := some "fax" }).db = [] :=
  ⟨by decide,
    submit_rejects_outside_enum mailDownEnv [] { janeBody with preferredContact := some "fax" }
      (Or.inl (by decide))⟩

/-! ## Accepted submissions -/

/-- C3, as stated, fails: a body that contains all six required fields, with both
enumerated fields inside their sets, is answered 500 and nothing is stored,
although the store accepts writes, when one of the required fields is the empty
string, and also when it carries a createdAt that is not a valid date. -/
theorem submit_present_but_empty_rejected :
    (({ janeBody with firstName := some "" } : Body).firstName.isSome = true ∧
      ({ janeBody with firstName := some "" } : Body).lastName.isSome = true ∧
      ({ janeBody with firstName := some "" } : Body).email.isSome = true ∧
      ({ janeBody with firstName := some "" } : Body).phone.isSome = true ∧
      ({ janeBody with firstName := some "" } : Body).preferredContact ∈
        [some "phone", some "email", some "text", some "businessPhone", some "businessEmail"] ∧
      ({ janeBody with firstName := some "" } : Body).serviceDesired ∈
        [some "Web Development", some "App Development"] ∧
      mailDownEnv.storeAccepts = true ∧
      (submit mailDownEnv [] { janeBody with firstName := some "" }).response =
        { status := 500, body := .message "Error submitting form" } ∧
      (submit mailDownEnv [] { janeBody with firstName := some "" }).db = []) ∧
    (({ janeBody with createdAt := some 8640000000000001 } : Body).firstName.isSome = true ∧
      ({ janeBody with createdAt := some 8640000000000001 } : Body).lastName.isSome = true ∧
      ({ janeBody with createdAt := some 8640000000000001 } : Body).email.isSome = true ∧
      ({ janeBody with createdAt := some 8640000000000001 } : Body).phone.isSome = true ∧
      ({ janeBody with createdAt := some 8640000000000001 } : Body).preferredContact ∈
        [some "phone", some "email", some "text", some "businessPhone", some "businessEmail"] ∧
      ({ janeBody with createdAt := some 8640000000000001 } : Body).serviceDesired ∈
        [some "Web Development", some "App Development"] ∧
      (submit mailDownEnv [] { janeBody with createdAt := some 8640000000000001 }).response =
        { status := 500, body := .message "Error submitting form" } ∧
      (submit mailDownEnv [] { janeBody with createdAt := some 8640000000000001 }).db = []) := by
  decide

/-- C3, amended. A body whose six required fields are all present and non-empty,
with preferredContact and serviceDesired inside their enumerated sets, and
whose createdAt, when it carries one, is a valid date (at most 8.64e15
milliseconds from the epoch), is, when the store accepts the write, answered
with status 200 and the message "Form submitted successfully", and the store
afterwards is the store before followed by exactly one new record, which
carries the submitted field values. -/
theorem submit_accepts_valid (env : Env) (db : List Lead) (body : Body)
    (hfirst : ∃ s, body.firstName = some s ∧ s ≠ "")
    (hlast : ∃ s, body.lastName = some s ∧ s ≠ "")
    (hemail : ∃ s, body.email = some s ∧ s ≠ "")
    (hphone : ∃ s, body.phone = some s ∧ s ≠ "")
    (hcontact : body.preferredContact ∈
      [some "phone", some "email", some "text", some "businessPhone", some "businessEmail"])
    (hservice : body.serviceDesired ∈ [some "Web Development", some "App Development"])
    (hdate : ∀ t, body.createdAt = some t →
      -8640000000000000 ≤ t ∧ t ≤ 8640000000000000)
    (hstore : env.storeAccepts = true) :
    (submit env db body).response =
      { status := 200, body := .message "Form submitted successfully" } ∧
    ∃ r : Lead, (submit env db body).db = db ++ [r] ∧
      r.firstName = body.firstName ∧ r.lastName = body.lastName ∧
      r.email = body.email ∧ r.phone = body.phone ∧
      r.phoneExt = body.phoneExt ∧ r.textNumber = body.textNumber ∧
      r.businessName = body.businessName ∧ r.businessPhone = body.businessPhone ∧
      r.businessPhoneExt = body.businessPhoneExt ∧ r.businessEmail = body.businessEmail ∧
      r.businessServices = body.businessServices ∧
      r.preferredContact = body.preferredContact ∧ r.serviceDesired = body.serviceDesired ∧
      r.hasWebsite = body.hasWebsite ∧ r.websiteAddress = body.websiteAddress ∧
      r.message = body.message ∧
      (∀ a, body.billingAddress = some a →
        r.billingAddress.street = a.street ∧ r.billingAddress.aptUnit = a.aptUnit ∧
        r.billingAddress.city = a.city ∧ r.billingAddress.state = a.state ∧
        r.billingAddress.zipCode = a.zipCode ∧
        ∀ c, a.country = some c → r.billingAddress.country = some c) ∧
      (∀ t, body.createdAt = some t → r.createdAt = t) := by
  have hcast : (newLead env.now body).castError = false := by
    cases hc : body.createdAt with
    | none => simp [newLead, hc]
    | some t => simp [newLead, hc, castDate_of_range (hdate t hc)]
  have hv : validate (newLead env.now body) = true := by
    obtain ⟨s1, h1, n1⟩ := hfirst
    obtain ⟨s2, h2, n2⟩ := hlast
    obtain ⟨s3, h3, n3⟩ := hemail
    obtain ⟨s4, h4, n4⟩ := hphone
    simp only [List.mem_cons, List.mem_singleton, List.not_mem_nil, or_false] at hcontact hservice
    have hfields : ∀ d : Document, d.castError = false →
        d.fields.firstName = some s1 → d.fields.lastName = some s2 →
        d.fields.email = some s3 → d.fields.phone = some s4 →
        d.fields.preferredContact = body.preferredContact →
        d.fields.serviceDesired = body.serviceDesired → validate d = true := by
      intro d e0 e1 e2 e3 e4 e5 e6
      rcases hcontact with h5 | h5 | h5 | h5 | h5 <;> rcases hservice with h6 | h6 <;>
        simp [validate, checkRequired, enumValidator, preferredContactEnum,
          serviceDesiredEnum, e0, e1, e2, e3, e4, e5, e6, h5, h6, n1, n2, n3, n4]
    exact hfields _ hcast h1 h2 h3 h4 rfl rfl
  rw [submit_of_saved env db body hv hstore]
  refine ⟨rfl, (newLead env.now body).fields, rfl, rfl, rfl, rfl, rfl, rfl, rfl, rfl, rfl, rfl,
    rfl, rfl, rfl, rfl, rfl, rfl, rfl, ?_, ?_⟩
  · intro a ha
    refine ⟨?_, ?_, ?_, ?_, ?_, ?_⟩ <;>
      simp [newLead, newBillingAddress, withDefault, ha]
    intro c hc
    simp [hc]
  · intro t hc
    rw [createdAt_of_validate env.now body hv, hc]
    rfl

theorem submit_accepts_valid_witness :
    (submit mailDownEnv [] { janeBody with createdAt := some 946684800000 }).response =
      { status := 200, body := .message "Form submitted successfully" } ∧
    ∃ r : Lead,
      (submit mailDownEnv [] { janeBody with createdAt := some 946684800000 }).db = [] ++ [r] ∧
      r.firstName = some "Jane" ∧ r.lastName = some "Doe" ∧
      r.email = some "jane@x.com" ∧ r.phone = some "555-1234" ∧
      r.phoneExt = none ∧ r.textNumber = none ∧
      r.businessName = none ∧ r.businessPhone = none ∧
      r.businessPhoneExt = none ∧ r.businessEmail = none ∧
      r.businessServices = none ∧
      r.preferredContact = some "email" ∧ r.serviceDesired = some "Web Development" ∧
      r.hasWebsite = none ∧ r.websiteAddress = none ∧
      r.message = none ∧
      (∀ a, ({ janeBody with createdAt := some 946684800000 } : Body).billingAddress = some a →
        r.billingAddress.street = a.street ∧ r.billingAddress.aptUnit = a.aptUnit ∧
        r.billingAddress.city = a.city ∧ r.billingAddress.state = a.state ∧
        r.billingAddress.zipCode = a.zipCode ∧
        ∀ c, a.country = some c → r.billingAddress.country = some c) ∧
      (∀ t, ({ janeBody with createdAt := some 946684800000 } : Body).createdAt = some t →
        r.createdAt = t) :=
  submit_accepts_valid mailDownEnv [] { janeBody with createdAt := some 946684800000 }
    ⟨"Jane", rfl, by decide⟩ ⟨"Doe", rfl, by decide⟩
    ⟨"jane@x.com", rfl, by decide⟩ ⟨"555-1234", rfl, by decide⟩ (by decide) (by decide)
    (fun t ht => by
      have e : t = 946684800000 := (Option.some.inj ht).symm
      subst e
      decide)
    rfl

/-- C4. Once a body has passed validation and the store has taken the record,
the answer is status 200 with the message "Form submitted successfully" and the
new record is in the store, whatever the mail transport does: the response and
the store are the same for every behaviour of the transport. -/
theorem submit_mail_failure_isolated (env : Env) (db db1 : List Lead) (body : Body)
    (hsaved : save env.storeAccepts db (newLead env.now body) = .ok db1)
    (transport : Nat → Mail → Bool) :
    (submit { env with sendMail := transport } db body).response =
      { status := 200, body := .message "Form submitted successfully" } ∧
    (submit { env with sendMail := transport } db body).db = db1 ∧
    db1 = db ++ [(newLead env.now body).fields] := by
  have hsplit : validate (newLead env.now body) = true ∧ env.storeAccepts = true ∧
      db1 = db ++ [(newLead env.now body).fields] := by
    unfold save at hsaved
    split at hsaved
    · split at hsaved
      · injection hsaved with h
        exact ⟨by assumption, by assumption, h.symm⟩
      · cases hsaved
    · cases hsaved
  obtain ⟨hv, hs, hdb⟩ := hsplit
  rw [submit_of_saved { env with sendMail := transport } db body hv hs]
  exact ⟨rfl, hdb.symm, hdb⟩

theorem submit_mail_failure_isolated_witness :
    save mailDownEnv.storeAccepts [] (newLead mailDownEnv.now janeBody) =
        .ok [(newLead mailDownEnv.now janeBody).fields] ∧
      (submit { mailDownEnv with sendMail := fun k _ => decide (k = 1) } [] janeBody).response =
        { status := 200, body := .message "Form submitted successfully" } ∧
      (submit { mailDownEnv with sendMail := fun k _ => decide (k = 1) } [] janeBody).db =
        [(newLead mailDownEnv.now janeBody).fields] ∧
      [(newLead mailDownEnv.now janeBody).fields] = [] ++ [(newLead mailDownEnv.now janeBody).fields] :=
  ⟨by rfl,
    submit_mail_failure_isolated mailDownEnv [] [(newLead mailDownEnv.now janeBody).fields] janeBody
      (by rfl) (fun k _ => decide (k = 1))⟩

/-! ## Schema defaults -/

/-- C6, as stated, fails: an accepted body that carries its own createdAt is
stored with that value, not with the server time at creation. -/
theorem submit_keeps_client_createdAt :
    (submit mailDownEnv [] { janeBody with createdAt := some 946684800000 }).response.status
      = 200 ∧
    (submit mailDownEnv [] { janeBody with createdAt := some 946684800000 }).db.map
      (fun r => r.createdAt) = [946684800000] ∧
    mailDownEnv.now = 1700000000000 := by
  decide

/-- C6, amended. For every accepted body the created record is the one new entry
of the store; when the body carries no createdAt its createdAt is the server
time at creation, and when the body carries a createdAt it is that value. -/
theorem submit_createdAt_default (env : Env) (db : List Lead) (body : Body)
    (h : (submit env db body).response.status = 200) :
    ∃ r : Lead, (submit env db body).db = db ++ [r] ∧
      (body.createdAt = none → r.createdAt = env.now) ∧
      (∀ t, body.createdAt = some t → r.createdAt = t) := by
  obtain ⟨hv, hs⟩ := saved_of_status env db body h
  rw [submit_of_saved env db body hv hs]
  refine ⟨(newLead env.now body).fields, rfl, ?_, ?_⟩
  · intro hc
    rw [createdAt_of_validate env.now body hv, hc]
    rfl
  · intro t hc
    rw [createdAt_of_validate env.now body hv, hc]
    rfl

theorem submit_createdAt_default_witness :
    (submit mailDownEnv [] janeBody).response.status = 200 ∧
    ∃ r : Lead, (submit mailDownEnv [] janeBody).db = [] ++ [r] ∧
      (janeBody.createdAt = none → r.createdAt = mailDownEnv.now) ∧
      (∀ t, janeBody.createdAt = some t → r.createdAt = t) :=
  ⟨by decide, submit_createdAt_default mailDownEnv [] janeBody (by decide)⟩

/-- C7, as stated, fails in its second half: an accepted body with no
billingAddress object is stored with a billing address that has the country
"USA". -/
theorem submit_without_address_has_country :
    janeBody.billingAddress = none ∧
    (submit mailDownEnv [] janeBody).response.status = 200 ∧
    (submit mailDownEnv [] janeBody).db.map (fun r => r.billingAddress.country) =
      [some "USA"] := by
  decide

/-- C7, amended. For every accepted body whose billingAddress object is present
without a country, the stored record has billingAddress.country = "USA"; for
every accepted body with no billingAddress object, the billing address of the
stored record holds the default country "USA" and no other sub-field. -/
theorem submit_country_default (env : Env) (db : List Lead) (body : Body)
    (h : (submit env db body).response.status = 200) :
    ∃ r : Lead, (submit env db body).db = db ++ [r] ∧
      (∀ a, body.billingAddress = some a → a.country = none →
        r.billingAddress.country = some "USA") ∧
      (body.billingAddress = none →
        r.billingAddress =
          { street := none, aptUnit := none, city := none, state := none, zipCode := none,
            country := some "USA" }) := by
  obtain ⟨hv, hs⟩ := saved_of_status env db body h
  rw [submit_of_saved env db body hv hs]
  refine ⟨(newLead env.now body).fields, rfl, ?_, ?_⟩
  · intro a ha hc
    simp [newLead, newBillingAddress, withDefault, ha, hc]
  · intro ha
    simp [newLead, newBillingAddress, withDefault, ha]

theorem submit_country_default_witness :
    (submit mailDownEnv [] { janeBody with billingAddress := some { city := some "Reno" } }
      ).response.status = 200 ∧
    ∃ r : Lead,
      (submit mailDownEnv [] { janeBody with billingAddress := some { city := some "Reno" } }).db
        = [] ++ [r] ∧
      (∀ a, ({ janeBody with billingAddress := some { city := some "Reno" } } : Body).billingAddress
          = some a → a.country = none → r.billingAddress.country = some "USA") ∧
      (({ janeBody with billingAddress := some { city := some "Reno" } } : Body).billingAddress
          = none →
        r.billingAddress =
          { street := none, aptUnit := none, city := none, state := none, zipCode := none,
            country := some "USA" }) :=
  ⟨by decide,
    submit_country_default mailDownEnv []
      { janeBody with billingAddress := some { city := some "Reno" } } (by decide)⟩

/-! ## E-mail composer -/

theorem orElse_eq_shown (v : Option String) (d : String) : orElse v d = shown v d := by
  cases v with
  | none => simp [orElse, truthy, shown]
  | some s => by_cases h : s = "" <;> simp [orElse, truthy, shown, interp, h]

theorem billingSection_shape (s apt c st z k : String) :
    "\n        <p><strong>Street:</strong> " ++ s ++ "</p>\n        " ++ apt ++
      "\n        <p><strong>City:</strong> " ++ c ++
      "</p>\n        <p><strong>State:</strong> " ++ st ++
      "</p>\n        <p><strong>ZIP Code:</strong> " ++ z ++
      "</p>\n        <p><strong>Country:</strong> " ++ k ++ "</p>\n      " =
    "\n        " ++ addressLine "Street" s ++
      "\n        " ++ apt ++
      "\n        " ++ addressLine "City" c ++
      "\n        " ++ addressLine "State" st ++
      "\n        " ++ addressLine "ZIP Code" z ++
      "\n        " ++ addressLine "Country" k ++
      "\n      " := by
  apply String.ext
  simp only [addressLine, String.data_append, List.append_assoc]
  rfl

theorem billingSection_eq_spec (b : Option Address) :
    billingSection b = billingSectionSpec "USA" b := by
  cases b with
  | none => rfl
  | some a =>
    have hapt : (if truthy a.aptUnit then
          "<p><strong>Apt/Unit:</strong> " ++ interp a.aptUnit ++ "</p>" else "") =
        (if shown a.aptUnit "" = "" then "" else addressLine "Apt/Unit" (shown a.aptUnit "")) := by
      cases a.aptUnit with
      | none => simp [truthy, shown]
      | some u =>
        by_cases h : u = "" <;>
          simp [truthy, shown, interp, addressLine, h, String.append_assoc]
    simp only [billingSection, billingSectionSpec, hapt, orElse_eq_shown]
    exact billingSection_shape _ _ _ _ _ _

/-- C8, as stated, fails for the country line: with a billing address whose
sub-fields are all missing, the section rendered by the code is not the one with
"Not provided" on all five lines; its country line shows "USA". -/
theorem billing_country_not_placeholder :
    billingSection (some {}) ≠ billingSectionSpec "Not provided" (some {}) ∧
    billingSection (some {}) =
      "\n        <p><strong>Street:</strong> Not provided</p>\n        " ++
      "\n        <p><strong>City:</strong> Not provided</p>" ++
      "\n        <p><strong>State:</strong> Not provided</p>" ++
      "\n        <p><strong>ZIP Code:</strong> Not provided</p>" ++
      "\n        <p><strong>Country:</strong> USA</p>\n      " := by
  decide

/-- C8, amended. The admin notification is the first message of `sendEmails`, and
its body holds, under the heading "Billing Address", a section that renders all
five address lines whenever the billingAddress structure is present, a missing
street, city, state or ZIP code being shown as "Not provided" and a missing
country as "USA"; the section is the single line "No billing address provided"
when billingAddress is absent. -/
theorem admin_billing_section (env : Env) (leadData : Body) :
    (sendEmails env leadData).1.head? = some (adminMail env leadData) ∧
    (∃ before after : String, (adminMail env leadData).html =
      before ++ "<h3>Billing Address</h3>\n      " ++
        billingSection leadData.billingAddress ++ after) ∧
    billingSection none = "<p>No billing address provided</p>" ∧
    (∀ a : Address, billingSection (some a) =
        "\n        " ++ addressLine "Street" (shown a.street "Not provided") ++
        "\n        " ++ (if shown a.aptUnit "" = "" then "" else
          addressLine "Apt/Unit" (shown a.aptUnit "")) ++
        "\n        " ++ addressLine "City" (shown a.city "Not provided") ++
        "\n        " ++ addressLine "State" (shown a.state "Not provided") ++
        "\n        " ++ addressLine "ZIP Code" (shown a.zipCode "Not provided") ++
        "\n        " ++ addressLine "Country" (shown a.country "USA") ++
        "\n      ") := by
  refine ⟨?_, ?_, ?_, ?_⟩
  · unfold sendEmails
    split
    · split <;> rfl
    · rfl
  · refine ⟨"\n      <h2>New Lead Submission</h2>\n      \n      <h3>Personal Information</h3>\n      <p><strong>Name:</strong> " ++
      interp leadData.firstName ++ " " ++ interp leadData.lastName ++
      "</p>\n      <p><strong>Email:</strong> " ++ interp leadData.email ++
      "</p>\n      <p><strong>Phone:</strong> " ++ interp leadData.phone ++
      (if truthy leadData.phoneExt then " ext. " ++ interp leadData.phoneExt else "") ++
      "</p>\n      " ++
      (if truthy leadData.textNumber then
        "<p><strong>Text Number:</strong> " ++ interp leadData.textNumber ++ "</p>" else "") ++
      "\n      \n      <h3>Business Information</h3>\n      " ++
      (if truthy leadData.businessName then
        "<p><strong>Business Name:</strong> " ++ interp leadData.businessName ++ "</p>"
        else "") ++
      "\n      " ++
      (if truthy leadData.businessPhone then
        "<p><strong>Business Phone:</strong> " ++ interp leadData.businessPhone ++
        (if truthy leadData.businessPhoneExt then
          " ext. " ++ interp leadData.businessPhoneExt else "") ++
        "</p>" else "") ++
      "\n      " ++
      (if truthy leadData.businessEmail then
        "<p><strong>Business Email:</strong> " ++ interp leadData.businessEmail ++ "</p>"
        else "") ++
      "\n      " ++
      (if truthy leadData.businessServices then
        "<p><strong>Business Services:</strong> " ++ interp leadData.businessServices ++ "</p>"
        else "") ++
      "\n      \n      ",
      "\n      \n      <h3>Service Details</h3>\n      <p><strong>Service Requested:</strong> " ++
      interp leadData.serviceDesired ++
      "</p>\n      <p><strong>Preferred Contact Method:</strong> " ++
      interp leadData.preferredContact ++ "</p>\n      " ++
      (if truthy leadData.hasWebsite then
        "<p><strong>Has Website:</strong> " ++ interp leadData.hasWebsite ++ "</p>" else "") ++
      "\n      " ++
      (if truthy leadData.websiteAddress then
        "<p><strong>Website Address:</strong> " ++ interp leadData.websiteAddress ++ "</p>"
        else "") ++
      "\n      \n      <h3>Additional Information</h3>\n      <p><strong>Message:</strong> " ++
      orElse leadData.message "None provided" ++
      "</p>\n      \n      <hr>\n      <p><em>Submitted on: " ++ env.localTime ++
      "</em></p>\n    ", ?_⟩
    apply String.ext
    simp only [adminMail, adminHtml, String.data_append, List.append_assoc]
    rfl
  · rfl
  · intro a
    rw [billingSection_eq_spec]
    rfl

theorem adminMail_ne_userMail (env : Env) (leadData : Body) :
    adminMail env leadData ≠ userMail env leadData := by
  intro h
  have hsub := congrArg (fun m => m.subject.data) h
  simp only [adminMail, userMail, String.data_append, List.append_assoc] at hsub
  have hhead := congrArg List.head? hsub
  simp at hhead

/-- C10. `sendEmails` hands at most two messages to the transport, in the fixed
order admin notification (to the configured admin address) and then user
confirmation (to the submitted email); the user confirmation is attempted
exactly when the send of the admin notification succeeded, and no message is
handed over twice. A submission makes no other call to the transport. -/
theorem sendEmails_calls (env : Env) (leadData : Body) :
    ((sendEmails env leadData).1 = [adminMail env leadData] ∨
      (sendEmails env leadData).1 = [adminMail env leadData, userMail env leadData]) ∧
    (sendEmails env leadData).1.length ≤ 2 ∧
    (userMail env leadData ∈ (sendEmails env leadData).1 ↔
      env.sendMail 0 (adminMail env leadData) = true) ∧
    (adminMail env leadData).recipient = env.adminEmail ∧
    (userMail env leadData).recipient = leadData.email ∧
    (sendEmails env leadData).1.Nodup ∧
    (∀ db, (submit env db leadData).mails = [] ∨
      (submit env db leadData).mails = (sendEmails env leadData).1) := by
  have hne := adminMail_ne_userMail env leadData
  have hsub : ∀ db, (submit env db leadData).mails = [] ∨
      (submit env db leadData).mails = (sendEmails env leadData).1 := by
    intro db
    unfold submit
    split
    · exact Or.inr rfl
    · exact Or.inl rfl
  cases h0 : env.sendMail 0 (adminMail env leadData) with
  | false =>
    have hcalls : (sendEmails env leadData).1 = [adminMail env leadData] := by
      simp [sendEmails, h0]
    refine ⟨Or.inl hcalls, ?_, ?_, rfl, rfl, ?_, hsub⟩
    · simp [hcalls]
    · simp [hcalls, Ne.symm hne]
    · simp [hcalls]
  | true =>
    have hcalls : (sendEmails env leadData).1 =
        [adminMail env leadData, userMail env leadData] := by
      cases h1 : env.sendMail 1 (userMail env leadData) <;> simp [sendEmails, h0, h1]
    refine ⟨Or.inr hcalls, ?_, ?_, rfl, rfl, ?_, hsub⟩
    · simp [hcalls]
    · simp [hcalls]
    · simp [hcalls, hne]

/-! ## Listing -/

/-- C5. When the store answers the query, `GET /api/leads` returns status 200 with
the records ordered by creation timestamp descending; it returns min(50, n) of
the n stored records, and they are the most recent ones: the returned records
and the records left out make up the store, and every returned record has a
creation timestamp greater than or equal to that of every record left out. The
store is not changed. -/
theorem leads_newest_fifty (env : Env) (db : List Lead) (h : env.storeReadable = true) :
    ∃ out rest : List Lead,
      (leads env db).response = { status := 200, body := .leads out } ∧
      (leads env db).db = db ∧
      out.length = min 50 db.length ∧
      List.Pairwise (fun a b => b.createdAt ≤ a.createdAt) out ∧
      List.Perm (out ++ rest) db ∧
      ∀ a ∈ out, ∀ b ∈ rest, b.createdAt ≤ a.createdAt := by
  have hsorted : List.Pairwise newestFirst (db.insertionSort newestFirst) :=
    List.sorted_insertionSort newestFirst db
  rw [← List.take_append_drop 50 (db.insertionSort newestFirst), List.pairwise_append] at hsorted
  refine ⟨findLeads db, (db.insertionSort newestFirst).drop 50, ?_, ?_, ?_, ?_, ?_, ?_⟩
  · simp [leads, h]
  · simp [leads, h]
  · simp [findLeads, List.length_take, List.length_insertionSort]
  · exact hsorted.1
  · unfold findLeads
    rw [List.take_append_drop]
    exact List.perm_insertionSort newestFirst db
  · exact hsorted.2.2

theorem leads_newest_fifty_witness :
    mailDownEnv.storeReadable = true ∧
    ∃ out rest : List Lead,
      (leads mailDownEnv [(newLead 1 janeBody).fields, (newLead 3 janeBody).fields, (newLead 2 janeBody).fields]).response =
        { status := 200, body := .leads out } ∧
      (leads mailDownEnv [(newLead 1 janeBody).fields, (newLead 3 janeBody).fields, (newLead 2 janeBody).fields]).db =
        [(newLead 1 janeBody).fields, (newLead 3 janeBody).fields, (newLead 2 janeBody).fields] ∧
      out.length = min 50 [(newLead 1 janeBody).fields, (newLead 3 janeBody).fields, (newLead 2 janeBody).fields].length ∧
      List.Pairwise (fun a b => b.createdAt ≤ a.createdAt) out ∧
      List.Perm (out ++ rest) [(newLead 1 janeBody).fields, (newLead 3 janeBody).fields, (newLead 2 janeBody).fields] ∧
      ∀ a ∈ out, ∀ b ∈ rest, b.createdAt ≤ a.createdAt :=
  ⟨rfl, leads_newest_fifty mailDownEnv
    [(newLead 1 janeBody).fields, (newLead 3 janeBody).fields, (newLead 2 janeBody).fields] rfl⟩

/-- The ordering scenario of the specification: records created at times 1, 3
and 2 are listed in the order 3, 2, 1. -/
theorem leads_order_example :
    (findLeads [(newLead 1 janeBody).fields, (newLead 3 janeBody).fields, (newLead 2 janeBody).fields]).map
      (fun r => r.createdAt) = [3, 2, 1] := by
  decide

/-- The limit scenario of the specification: of 60 records created at times
0, 1, ..., 59, the listing holds the 50 created at times 59 down to 10. -/
theorem leads_limit_example :
    (findLeads ((List.range 60).map (fun t => (newLead t janeBody).fields))).map
      (fun r => r.createdAt) = (List.range 50).map (fun i => (59 : Int) - i) := by
  decide

/-! ## Immutability of stored records -/

theorem handle_appends (env : Env) (db : List Lead) (req : Request) :
    ∃ added : List Lead, (handle env db req).db = db ++ added ∧
      added.length ≤ (if isSubmit req then 1 else 0) := by
  cases req with
  | health => exact ⟨[], by simp [handle, health], by simp⟩
  | leads =>
    refine ⟨[], ?_, by simp⟩
    simp only [handle, leads]
    split <;> simp
  | submit body =>
    simp only [handle, submit, save]
    by_cases hv : validate (newLead env.now body) = true
    · by_cases hs : env.storeAccepts = true
      · exact ⟨[(newLead env.now body).fields], by simp [hv, hs], by simp [isSubmit]⟩
      · exact ⟨[], by simp [hv, hs], by simp⟩
    · exact ⟨[], by simp [hv], by simp⟩

/-- C9. Records are immutable after creation. After any sequence of requests to
the three routes the store is the store before, unchanged and in place,
followed by the records added, at most one for each submission in the sequence;
`GET /health` and `GET /api/leads` leave the store exactly as it was, and a
submission leaves it as it was or appends one record to it. -/
theorem store_append_only (db : List Lead) (reqs : List (Env × Request)) :
    (∃ added : List Lead, run db reqs = db ++ added ∧
      added.length ≤ reqs.countP (fun p => isSubmit p.2)) ∧
    (∀ env, (handle env db .health).db = db ∧ (handle env db .leads).db = db) ∧
    (∀ env body, (handle env db (.submit body)).db = db ∨
      ∃ r, (handle env db (.submit body)).db = db ++ [r]) := by
  refine ⟨?_, ?_, ?_⟩
  · induction reqs generalizing db with
    | nil => exact ⟨[], by simp [run], by simp⟩
    | cons p rest ih =>
      obtain ⟨env, req⟩ := p
      obtain ⟨a1, h1, l1⟩ := handle_appends env db req
      obtain ⟨a2, h2, l2⟩ := ih (handle env db req).db
      refine ⟨a1 ++ a2, ?_, ?_⟩
      · simp only [run]
        rw [h2, h1, List.append_assoc]
      · rw [List.countP_cons, List.length_append]
        simp only
        omega
  · intro env
    constructor
    · simp [handle, health]
    · simp only [handle, leads]
      split <;> rfl
  · intro env body
    obtain ⟨a, h, l⟩ := handle_appends env db (.submit body)
    simp only [isSubmit, if_true] at l
    match a, h, l with
    | [], h, _ => exact Or.inl (by simpa using h)
    | [r], h, _ => exact Or.inr ⟨r, h⟩
    | _ :: _ :: _, _, l => simp at l

end FormsServer
